import Mathlib

/-!
Verification of the go-fil-markets excerpt: the piece-preparation pipeline
(package pieceio) and the storage-market client (package storageimpl).

The Go code is shallowly embedded: external capabilities (the CAR archive
codec, the padding/commitment functions, the file store, the network and the
chain node) become explicit environments of deterministic Lean functions,
byte streams become lists of naturals, content identifiers, addresses, peer
identities and streams become naturals, and every fallible Go call returns
an Except or an Option error exactly where the source checks one.
-/

/-- Byte streams: io.Reader / io.Writer traffic, as the list of bytes moved. -/
abbrev Bytes := List Nat

/-- Go error values, by their message. -/
abbrev Err := String

/-- Result of PreparedCar (pieceio.PreparedCar): Size reports the total
encoded length before any byte is produced; Dump writes dumpBytes into the
writer and returns dumpErr. -/
structure PreparedCar where
  size : Nat
  dumpBytes : Bytes
  dumpErr : Option Err
deriving DecidableEq, Repr

/-- Environment for the CAR archive codec (the Go interface named CarIO,
pieceio part_000 lines 27-37): each method is a deterministic function of
the blockstore, payload cid and selector. writeCar returns the bytes it
writes into the sink on success. -/
structure CarEnv where
  writeCar : Nat → Nat → Nat → Except Err Bytes
  prepareCar : Nat → Nat → Nat → Except Err PreparedCar
deriving Inhabited

/-- Environment for the external padding and commitment capabilities:
padNew models padreader.New (padded stream and padded size from the raw
stream and its declared size), genPieceCID models
ffiwrapper.GeneratePieceCIDFromFile on a proof type, padded stream and
padded size. -/
structure CommitEnv where
  padNew : Bytes → Nat → Bytes × Nat
  genPieceCID : Nat → Bytes → Nat → Except Err Nat
deriving Inhabited

/-- Outcomes of the pipe plumbing in streaming mode: os.Pipe, the write-end
close in the producer goroutine, and the read-end close in the consumer. -/
structure PipeEnv where
  pipeErr : Option Err
  wCloseErr : Option Err
  rCloseErr : Option Err
deriving DecidableEq, Repr

/-- The pieceIO struct of the source: its CAR codec and its blockstore. -/
structure PieceIOCore where
  car : CarEnv
  bs : Nat
deriving Inhabited

/-- The free function GeneratePieceCommitment (part_000 lines 124-131):
pad the reader to the next size class, then run the commitment function;
returns the commitment together with the padded size. -/
def GeneratePieceCommitment (cenv : CommitEnv) (rt : Nat) (rd : Bytes)
    (pieceSize : Nat) : Except Err (Nat × Nat) :=
  let pr := cenv.padNew rd pieceSize
  match cenv.genPieceCID rt pr.1 pr.2 with
  | .error e => .error e
  | .ok commitment => .ok (commitment, pr.2)

/-- Streaming mode, (*pieceIO).GeneratePieceCommitment (part_000 lines
57-91). The producer goroutine dumps the prepared encoding into the pipe
and closes the write end, folding the close error into werr only when Dump
itself succeeded; the consumer pads and commits what was written. The
error checks happen in source order: consumer error first, then the read
end close error, then the producer's werr. -/
def pieceIOGeneratePieceCommitment (pio : PieceIOCore) (cenv : CommitEnv)
    (penv : PipeEnv) (rt payloadCid selector : Nat) : Except Err (Nat × Nat) :=
  match pio.car.prepareCar pio.bs payloadCid selector with
  | .error e => .error e
  | .ok preparedCar =>
    let pieceSize := preparedCar.size
    match penv.pipeErr with
    | some e => .error e
    | none =>
      let werr : Option Err :=
        match preparedCar.dumpErr with
        | some e => some e
        | none => penv.wCloseErr
      match GeneratePieceCommitment cenv rt preparedCar.dumpBytes pieceSize with
      | .error e => .error e
      | .ok res =>
        match penv.rCloseErr with
        | some closeErr => .error closeErr
        | none =>
          match werr with
          | some e => .error e
          | none => .ok res

/-- One file of the file store: its path, current content, and whether the
handle is still open. -/
structure FileRec where
  path : Nat
  content : Bytes
  isOpen : Bool
deriving DecidableEq, Repr

/-- State of the file store: the files present, and the path the next
CreateTemp will use. -/
structure FSState where
  files : List FileRec
  nextPath : Nat
deriving DecidableEq, Repr

/-- Error outcomes of the file store operations; the source discards the
close and delete errors on its cleanup paths, so these fields never reach
a caller of the pipeline. -/
structure StoreEnv where
  createTempErr : Option Err
  seekErr : Option Err
  closeErr : Option Err
  deleteErr : Option Err
deriving DecidableEq, Repr

/-- Look a file up by path. -/
def fsLookup (fs : FSState) (p : Nat) : Option FileRec :=
  fs.files.find? (fun f => f.path == p)

/-- File.Close: mark the handle closed; the store reports closeErr. -/
def fsClose (senv : StoreEnv) (fs : FSState) (p : Nat) : Option Err × FSState :=
  (senv.closeErr,
   { fs with files := fs.files.map (fun f => if f.path == p then { f with isOpen := false } else f) })

/-- FileStore.Delete: remove the file at the path; the store reports
deleteErr. -/
def fsDelete (senv : StoreEnv) (fs : FSState) (p : Nat) : Option Err × FSState :=
  (senv.deleteErr, { fs with files := fs.files.filter (fun f => f.path != p) })

/-- The cleanup closure of GeneratePieceCommitmentToFile (part_000 lines
99-102): close the temp file, delete it, and discard both errors, exactly
as the source does with f.Close() and the blank assignment on Delete. -/
def cleanupTemp (senv : StoreEnv) (fs : FSState) (p : Nat) : FSState :=
  (fsDelete senv (fsClose senv fs p).2 p).2

/-- Record the bytes WriteCar appended to the fresh temp file at path p. -/
def fsWriteContent (fs : FSState) (p : Nat) (ws : Bytes) : FSState :=
  { fs with files := fs.files.map (fun f => if f.path == p then { f with content := ws } else f) }

/-- Disk-buffered mode, (*pieceIOWithStore).GeneratePieceCommitmentToFile
(part_000 lines 93-122): create a temp file, write the CAR into it, take
its size, seek to the start, pad and commit its content; on each failure
after creation run the cleanup closure and return the primary error; on
success close the file, leave it in place and return its path. -/
def pieceIOWithStoreGeneratePieceCommitmentToFile (pio : PieceIOCore)
    (senv : StoreEnv) (cenv : CommitEnv) (fs : FSState)
    (rt payloadCid selector : Nat) :
    Except Err (Nat × Nat × Nat) × FSState :=
  match senv.createTempErr with
  | some e => (.error e, fs)
  | none =>
    let p := fs.nextPath
    let fs1 : FSState :=
      { files := { path := p, content := [], isOpen := true } :: fs.files,
        nextPath := fs.nextPath + 1 }
    match pio.car.writeCar pio.bs payloadCid selector with
    | .error e => (.error e, cleanupTemp senv fs1 p)
    | .ok ws =>
      let fs2 := fsWriteContent fs1 p ws
      let pieceSize := ws.length
      match senv.seekErr with
      | some e => (.error e, cleanupTemp senv fs2 p)
      | none =>
        match GeneratePieceCommitment cenv rt ws pieceSize with
        | .error e => (.error e, cleanupTemp senv fs2 p)
        | .ok res => (.ok (res.1, p, res.2), (fsClose senv fs2 p).2)

/-- The on-chain deal proposal (market.DealProposal) as ProposeStorageDeal
fills it in. Addresses and cids are naturals; token amounts are integers
(big.Int values). -/
structure DealProposal where
  pieceCID : Nat
  pieceSize : Nat
  client : Nat
  provider : Nat
  startEpoch : Int
  endEpoch : Int
  storagePricePerEpoch : Int
  providerCollateral : Int
  clientCollateral : Int
deriving DecidableEq, Repr

/-- A signed proposal (market.ClientDealProposal): the proposal plus the
signature the chain node attached. -/
structure ClientDealProposal where
  proposal : DealProposal
  clientSignature : Nat
deriving DecidableEq, Repr

/-- The client-side deal record (storagemarket.ClientDeal) as
ProposeStorageDeal builds it (dlog.go lines 225-232). -/
structure ClientDeal where
  proposalCid : Nat
  clientDealProposal : ClientDealProposal
  state : Nat
  miner : Nat
  minerWorker : Nat
  dataRef : Nat
deriving DecidableEq, Repr

/-- storagemarket.StorageDealUnknown, the zero state of a new deal. -/
def StorageDealUnknown : Nat := 0

/-- Go conversion int64(n) of a uint64 value n: two's-complement wrap into
the signed 64-bit range, as in abi.NewTokenAmount(int64(pieceSize)). -/
def toInt64 (n : Nat) : Int :=
  (((n + 2 ^ 63) % 2 ^ 64 : Nat) : Int) - 2 ^ 63

/-- abi.UnpaddedPieceSize.Padded from specs-actors (external dependency of
the source): the padded on-chain size of an unpadded piece size s is
s + s / 127. -/
def UnpaddedPieceSizePadded (s : Nat) : Nat := s + s / 127

/-- The deal proposal literal of ProposeStorageDeal (dlog.go lines
203-213): piece fields from the commP pipeline, placeholder provider
collateral equal to the (unpadded) piece size, zero client collateral. -/
def mkDealProposal (commP : Nat) (pieceSize : Nat) (addr provider : Nat)
    (startEpoch endEpoch : Int) (price : Int) : DealProposal :=
  { pieceCID := commP
    pieceSize := UnpaddedPieceSizePadded pieceSize
    client := addr
    provider := provider
    startEpoch := startEpoch
    endEpoch := endEpoch
    storagePricePerEpoch := price
    providerCollateral := toInt64 pieceSize
    clientCollateral := 0 }

/-- Mutable state of the Client: the state machine engine's deal records
(keyed by proposal cid) and the connection registry conns (proposal cid to
stream), plus the streams whose Close has been called (to state that
CloseStream really closes). Both maps are association lists with map
semantics: insertion prepends, deletion filters the key out. -/
structure ClientState where
  deals : List (Nat × ClientDeal)
  conns : List (Nat × Nat)
  closedStreams : List Nat
deriving DecidableEq, Repr

/-- Steps of ProposeStorageDeal that touch shared state, in execution
order: a successful statemachines.Begin, the registration of the deal
stream in conns, a successful statemachines.Send of the open event, and
the final discovery.AddPeer call. -/
inductive PAct where
  | beginDeal : Nat → PAct
  | registerConn : Nat → Nat → PAct
  | sendOpen : Nat → PAct
  | addPeer : Nat → PAct
deriving DecidableEq, Repr

/-- storagemarket.ProposeStorageDealResult. -/
structure ProposeStorageDealResult where
  proposalCid : Nat
deriving DecidableEq, Repr

/-- Environment of ProposeStorageDeal: the outcome of every external call
it makes, each a deterministic function of its arguments. commP is
clientutils.CommP (proof type, data root); signProposal the chain node;
asIpldCid cborutil.AsIpld followed by Cid; newDealStream the network;
sendOpenErr the fsm engine's answer to Send; addPeerErr discovery. -/
structure ProposeEnv where
  commP : Nat → Nat → Except Err (Nat × Nat)
  signProposal : Nat → DealProposal → Except Err ClientDealProposal
  asIpldCid : ClientDealProposal → Except Err Nat
  newDealStream : Nat → Except Err Nat
  sendOpenErr : Option Err
  addPeerErr : Option Err
deriving Inhabited

/-- fsm.Group.Begin: register a brand-new record under id, failing when id
is already tracked. -/
def fsmBegin (deals : List (Nat × ClientDeal)) (id : Nat) (d : ClientDeal) :
    Except Err (List (Nat × ClientDeal)) :=
  match deals.find? (fun kv => kv.1 == id) with
  | some _ => .error "deal already tracked"
  | none => .ok ((id, d) :: deals)

/-- fsm.Group.Send of the open event: fails when id is unknown, otherwise
queues the event with the engine-determined outcome; the record map is not
changed by the call itself. -/
def fsmSend (deals : List (Nat × ClientDeal)) (id : Nat)
    (sendErr : Option Err) : Except Err Unit :=
  match deals.find? (fun kv => kv.1 == id) with
  | none => .error "deal not tracked"
  | some _ =>
    match sendErr with
    | some e => .error e
    | none => .ok ()

/-- Client.ProposeStorageDeal (dlog.go lines 187-258). Returns, following
the Go multiple return, the result pointer and the error together, plus
the updated state and the trace of shared-state steps taken. The
collateral parameter is carried exactly as in the source, which never
reads it. -/
def ClientProposeStorageDeal (env : ProposeEnv) (st : ClientState)
    (addr : Nat) (infoAddress infoPeerID infoWorker : Nat) (dataRoot : Nat)
    (startEpoch endEpoch : Int) (price : Int) (collateral : Int) (rt : Nat) :
    (Option ProposeStorageDealResult × Option Err) × ClientState × List PAct :=
  match env.commP rt dataRoot with
  | .error e => ((none, some ("computing commP failed: " ++ e)), st, [])
  | .ok cp =>
    let dealProposal :=
      mkDealProposal cp.1 cp.2 addr infoAddress startEpoch endEpoch price
    match env.signProposal addr dealProposal with
    | .error e => ((none, some ("signing deal proposal failed: " ++ e)), st, [])
    | .ok clientDealProposal =>
      match env.asIpldCid clientDealProposal with
      | .error e => ((none, some ("getting proposal node failed: " ++ e)), st, [])
      | .ok proposalCid =>
        let deal : ClientDeal :=
          { proposalCid := proposalCid
            clientDealProposal := clientDealProposal
            state := StorageDealUnknown
            miner := infoPeerID
            minerWorker := infoWorker
            dataRef := dataRoot }
        match fsmBegin st.deals proposalCid deal with
        | .error e => ((none, some ("setting up deal tracking: " ++ e)), st, [])
        | .ok deals1 =>
          let st1 : ClientState := { st with deals := deals1 }
          match env.newDealStream infoPeerID with
          | .error e =>
            ((none, some ("connecting to storage provider failed: " ++ e)),
             st1, [PAct.beginDeal proposalCid])
          | .ok s =>
            let st2 : ClientState := { st1 with conns := (proposalCid, s) :: st1.conns }
            match fsmSend st2.deals proposalCid env.sendOpenErr with
            | .error e =>
              ((none, some ("initializing state machine: " ++ e)), st2,
               [PAct.beginDeal proposalCid, PAct.registerConn proposalCid s])
            | .ok _ =>
              ((some { proposalCid := proposalCid }, env.addPeerErr), st2,
               [PAct.beginDeal proposalCid, PAct.registerConn proposalCid s,
                PAct.sendOpen proposalCid, PAct.addPeer dataRoot])

/-- Client.GetInProgressDeal: statemachines.Get(cid).Get, a read-only
lookup of one deal record. -/
def ClientGetInProgressDeal (st : ClientState) (id : Nat) :
    Except Err ClientDeal :=
  match st.deals.find? (fun kv => kv.1 == id) with
  | some kv => .ok kv.2
  | none => .error "deal not tracked"

/-- Client.ListInProgressDeals: statemachines.List, all deal records. -/
def ClientListInProgressDeals (st : ClientState) : List ClientDeal :=
  st.deals.map (fun kv => kv.2)

/-- A provider ask (storagemarket.StorageAsk): the miner it is addressed
to plus its terms, abstracted to a price. -/
structure StorageAsk where
  price : Int
  miner : Nat
deriving DecidableEq, Repr

/-- storagemarket.SignedStorageAsk. -/
structure SignedStorageAsk where
  ask : StorageAsk
  signature : Nat
deriving DecidableEq, Repr

/-- network.AskResponse: the Ask field may be nil. -/
structure AskResponse where
  ask : Option SignedStorageAsk
deriving DecidableEq, Repr

/-- Environment of GetAsk: stream opening, request write, response read,
and the chain node signature validation. -/
structure AskNetEnv where
  newAskStreamErr : Nat → Option Err
  writeAskRequestErr : Nat → Option Err
  readAskResponseRes : Except Err AskResponse
  validateAskSignature : SignedStorageAsk → Option Err
deriving Inhabited

/-- Client.GetAsk (dlog.go lines 156-185): open an ask stream, send the
request for the provider address, read the response, reject a nil ask, an
ask for the wrong miner, or a bad signature. The client state is carried
to express that the call never touches it. -/
def ClientGetAsk (env : AskNetEnv) (st : ClientState)
    (infoPeerID infoAddress : Nat) : Except Err SignedStorageAsk × ClientState :=
  match env.newAskStreamErr infoPeerID with
  | some e => (.error ("failed to open stream to miner: " ++ e), st)
  | none =>
    match env.writeAskRequestErr infoAddress with
    | some e => (.error ("failed to send ask request: " ++ e), st)
    | none =>
      match env.readAskResponseRes with
      | .error e => (.error ("failed to read ask response: " ++ e), st)
      | .ok out =>
        match out.ask with
        | none => (.error "got no ask back", st)
        | some sa =>
          if sa.ask.miner != infoAddress then
            (.error "got back ask for wrong miner", st)
          else
            match env.validateAskSignature sa with
            | some _ => (.error "ask was not properly signed", st)
            | none => (.ok sa, st)

/-- Per-stream close outcomes for the connection registry. -/
structure StreamEnv where
  closeStreamErr : Nat → Option Err
deriving Inhabited

/-- clientDealEnvironment.DealStream (dlog.go lines 276-284): registry
lookup under the read lock, or the no-connection error. -/
def clientDealEnvironmentDealStream (st : ClientState) (proposalCid : Nat) :
    Except Err Nat :=
  match st.conns.find? (fun kv => kv.1 == proposalCid) with
  | some kv => .ok kv.2
  | none => .error "no connection to provider"

/-- clientDealEnvironment.CloseStream (dlog.go lines 286-297): under the
write lock, a miss is a silent no-op; a hit closes the stream, deletes the
entry and returns the close error. -/
def clientDealEnvironmentCloseStream (env : StreamEnv) (st : ClientState)
    (proposalCid : Nat) : Option Err × ClientState :=
  match st.conns.find? (fun kv => kv.1 == proposalCid) with
  | none => (none, st)
  | some kv =>
    (env.closeStreamErr kv.2,
     { st with conns := st.conns.filter (fun c => c.1 != proposalCid),
               closedStreams := kv.2 :: st.closedStreams })

/-- Concrete commitment environment for the witnesses: padding appends one
byte, the commitment is a sum of the arguments. -/
def cenvW : CommitEnv :=
  { padNew := fun rd n => (rd ++ [0], n + 1)
    genPieceCID := fun rt bts n => .ok (rt + bts.length + n) }

/-- Concrete CAR codec whose prepared encoding and direct write agree. -/
def carW : CarEnv :=
  { writeCar := fun _ _ _ => .ok [1, 2, 3]
    prepareCar := fun _ _ _ => .ok { size := 3, dumpBytes := [1, 2, 3], dumpErr := none } }

/-- Concrete pieceIO over carW. -/
def pioW : PieceIOCore := { car := carW, bs := 0 }

/-- Pipe plumbing with no failures. -/
def penvW : PipeEnv := { pipeErr := none, wCloseErr := none, rCloseErr := none }

/-- File store with no failures. -/
def senvW : StoreEnv :=
  { createTempErr := none, seekErr := none, closeErr := none, deleteErr := none }

/-- Empty file store state. -/
def fsW : FSState := { files := [], nextPath := 0 }

/-- CAR codec whose Dump fails after writing its bytes. -/
def carW2 : CarEnv :=
  { writeCar := fun _ _ _ => .ok [1, 2, 3]
    prepareCar := fun _ _ _ =>
      .ok { size := 3, dumpBytes := [1, 2, 3], dumpErr := some "dump failed" } }

/-- pieceIO over carW2. -/
def pioW2 : PieceIOCore := { car := carW2, bs := 0 }

/-- CAR codec whose WriteCar fails. -/
def carW3 : CarEnv :=
  { writeCar := fun _ _ _ => .error "write failed"
    prepareCar := fun _ _ _ => .error "unused" }

/-- pieceIO over carW3. -/
def pioW3 : PieceIOCore := { car := carW3, bs := 0 }

/-- Empty client state. -/
def stW : ClientState := { deals := [], conns := [], closedStreams := [] }

/-- Propose environment whose commP computation fails. -/
def envW4 : ProposeEnv :=
  { commP := fun _ _ => .error "boom"
    signProposal := fun _ p => .ok { proposal := p, clientSignature := 42 }
    asIpldCid := fun _ => .ok 77
    newDealStream := fun _ => .ok 13
    sendOpenErr := none
    addPeerErr := none }

/-- Propose environment where every step succeeds. -/
def envW5 : ProposeEnv :=
  { commP := fun _ _ => .ok (5, 100)
    signProposal := fun _ p => .ok { proposal := p, clientSignature := 42 }
    asIpldCid := fun _ => .ok 77
    newDealStream := fun _ => .ok 13
    sendOpenErr := none
    addPeerErr := none }

/-- Ask environment answering with an ask for miner 5 that also fails
signature validation. -/
def envW6 : AskNetEnv :=
  { newAskStreamErr := fun _ => none
    writeAskRequestErr := fun _ => none
    readAskResponseRes := .ok { ask := some { ask := { price := 10, miner := 5 }, signature := 99 } }
    validateAskSignature := fun _ => some "bad sig" }

/-- Stream environment where every close fails. -/
def streamEnvW : StreamEnv := { closeStreamErr := fun _ => some "close failed" }

/-- Client state with one registered connection, cid 3 to stream 10. -/
def stW7 : ClientState := { deals := [], conns := [(3, 10)], closedStreams := [] }

/-- After filtering every element whose key equals id out of a list, a
search for that key finds nothing. -/
theorem find?_key_filter {α : Type} (key : α → Nat) (l : List α) (id : Nat) :
    (l.filter (fun a => key a != id)).find? (fun a => key a == id) = none := by
  induction l with
  | nil => rfl
  | cons a t ih =>
    by_cases h : key a = id
    · simpa [List.filter_cons, h] using ih
    · simp [List.filter_cons, List.find?_cons, h, ih]

/-- C9: in the deal proposal constructed by Client.ProposeStorageDeal (the
literal of dlog.go lines 203-213, embedded as mkDealProposal and used by
ClientProposeStorageDeal), the ProviderCollateral field is the unpadded
piece size converted to a token amount through the int64 cast, the
ClientCollateral field is zero, and the PieceSize field is the padded form
of the piece size the preparation pipeline returned. -/
theorem C9_proposal_fields (commP pieceSize addr provider : Nat)
    (startEpoch endEpoch price : Int) :
    (mkDealProposal commP pieceSize addr provider startEpoch endEpoch price).providerCollateral
        = toInt64 pieceSize ∧
    (mkDealProposal commP pieceSize addr provider startEpoch endEpoch price).clientCollateral = 0 ∧
    (mkDealProposal commP pieceSize addr provider startEpoch endEpoch price).pieceSize
        = UnpaddedPieceSizePadded pieceSize :=
  ⟨rfl, rfl, rfl⟩

/-- C10: the collateral argument of Client.ProposeStorageDeal is never
read, so two invocations differing only in it return the same result,
produce the same state and take the same steps. -/
theorem C10_collateral_unused (env : ProposeEnv) (st : ClientState)
    (addr infoAddress infoPeerID infoWorker dataRoot : Nat)
    (startEpoch endEpoch price : Int) (rt : Nat) (col1 col2 : Int) :
    ClientProposeStorageDeal env st addr infoAddress infoPeerID infoWorker dataRoot
        startEpoch endEpoch price col1 rt =
    ClientProposeStorageDeal env st addr infoAddress infoPeerID infoWorker dataRoot
        startEpoch endEpoch price col2 rt := rfl

/-- C7: CloseStream on an id absent from the connection registry is a
no-op returning no error; on a present id it returns that stream's close
error, removes the entry, records the stream as closed, and leaves the
deal records alone. -/
theorem C7_closeStream (env : StreamEnv) (st : ClientState) (id : Nat) :
    (st.conns.find? (fun kv => kv.1 == id) = none →
      clientDealEnvironmentCloseStream env st id = (none, st)) ∧
    (∀ kv, st.conns.find? (fun kv => kv.1 == id) = some kv →
      (clientDealEnvironmentCloseStream env st id).1 = env.closeStreamErr kv.2 ∧
      ((clientDealEnvironmentCloseStream env st id).2).conns.find? (fun c => c.1 == id) = none ∧
      kv.2 ∈ ((clientDealEnvironmentCloseStream env st id).2).closedStreams ∧
      ((clientDealEnvironmentCloseStream env st id).2).deals = st.deals) := by
  constructor
  · intro h
    unfold clientDealEnvironmentCloseStream
    rw [h]
  · intro kv h
    unfold clientDealEnvironmentCloseStream
    rw [h]
    refine ⟨rfl, ?_, ?_, rfl⟩
    · exact find?_key_filter (fun c => c.1) st.conns id
    · simp

/-- C7 witness: closing the present entry (3, 10) of stW7 yields the close
error of stream 10 and deletes the entry. -/
theorem C7_closeStream_witness :
    (clientDealEnvironmentCloseStream streamEnvW stW7 3).1 = streamEnvW.closeStreamErr 10 ∧
    ((clientDealEnvironmentCloseStream streamEnvW stW7 3).2).conns.find? (fun c => c.1 == 3) = none ∧
    10 ∈ ((clientDealEnvironmentCloseStream streamEnvW stW7 3).2).closedStreams ∧
    ((clientDealEnvironmentCloseStream streamEnvW stW7 3).2).deals = stW7.deals :=
  (C7_closeStream streamEnvW stW7 3).2 (3, 10) rfl

/-- C8: immediately after CloseStream(id), DealStream(id) fails with the
no-connection error, and it starts succeeding again as soon as a new
stream is registered for id. -/
theorem C8_dealStream_after_close (env : StreamEnv) (st : ClientState) (id : Nat) :
    clientDealEnvironmentDealStream (clientDealEnvironmentCloseStream env st id).2 id
        = .error "no connection to provider" ∧
    (∀ s : Nat,
      clientDealEnvironmentDealStream
        { (clientDealEnvironmentCloseStream env st id).2 with
            conns := (id, s) :: ((clientDealEnvironmentCloseStream env st id).2).conns } id
        = .ok s) := by
  constructor
  · unfold clientDealEnvironmentCloseStream
    cases h : st.conns.find? (fun kv => kv.1 == id) with
    | none =>
      unfold clientDealEnvironmentDealStream
      rw [h]
    | some kv =>
      unfold clientDealEnvironmentDealStream
      simp only
      rw [find?_key_filter (fun c => c.1) st.conns id]
  · intro s
    unfold clientDealEnvironmentDealStream
    simp [List.find?_cons]

/-- C6: when the ask response carries an ask whose miner differs from the
requested provider address, or one whose signature fails validation,
GetAsk returns an error with no ask; and GetAsk never changes the client
state (deal records and connection registry included). -/
theorem C6_getAsk_rejects (env : AskNetEnv) (st : ClientState)
    (infoPeerID infoAddress : Nat) (sa : SignedStorageAsk)
    (hopen : env.newAskStreamErr infoPeerID = none)
    (hwrite : env.writeAskRequestErr infoAddress = none)
    (hread : env.readAskResponseRes = .ok { ask := some sa }) :
    (ClientGetAsk env st infoPeerID infoAddress).2 = st ∧
    (sa.ask.miner ≠ infoAddress →
      ClientGetAsk env st infoPeerID infoAddress
        = (.error "got back ask for wrong miner", st)) ∧
    (∀ e, sa.ask.miner = infoAddress → env.validateAskSignature sa = some e →
      ClientGetAsk env st infoPeerID infoAddress
        = (.error "ask was not properly signed", st)) := by
  unfold ClientGetAsk
  rw [hopen, hwrite, hread]
  refine ⟨?_, ?_, ?_⟩
  · by_cases h : sa.ask.miner = infoAddress
    · simp only [h]
      simp only [bne_self_eq_false, Bool.false_eq_true, if_false]
      cases env.validateAskSignature sa <;> rfl
    · simp [h]
  · intro h
    simp [h]
  · intro e h hv
    simp [h, hv]

/-- C6 witness: envW6 answers with an ask for miner 5; asking for miner 6
is rejected as addressed to the wrong miner, with the state untouched. -/
theorem C6_getAsk_rejects_witness :
    ClientGetAsk envW6 stW 9 6 = (.error "got back ask for wrong miner", stW) :=
  (C6_getAsk_rejects envW6 stW 9 6
      { ask := { price := 10, miner := 5 }, signature := 99 } rfl rfl rfl).2.1
    (by decide)

/-- C4: a run of Client.ProposeStorageDeal that fails with an empty step
trace (every failure before a successful statemachines.Begin: commP,
signing, proposal-node encoding, and Begin itself, which leave the trace
empty by construction) returns the state unchanged, so no deal record and
no registry entry survive it; a commP failure in particular returns the
initial state, no result and the wrapped commP error; and any failing run
whose trace shows Begin succeeded leaves the deal record discoverable via
the get and list operations. -/
theorem C4_failure_persistence (env : ProposeEnv) (st : ClientState)
    (addr infoAddress infoPeerID infoWorker dataRoot : Nat)
    (startEpoch endEpoch price : Int) (collateral : Int) (rt : Nat)
    (val : Option ProposeStorageDealResult) (errOpt : Option Err)
    (st' : ClientState) (tr : List PAct)
    (hrun : ClientProposeStorageDeal env st addr infoAddress infoPeerID infoWorker
        dataRoot startEpoch endEpoch price collateral rt = ((val, errOpt), st', tr)) :
    (∀ e, env.commP rt dataRoot = .error e →
      val = none ∧ errOpt = some ("computing commP failed: " ++ e) ∧ st' = st ∧ tr = []) ∧
    (∀ e, errOpt = some e → tr = [] → st' = st) ∧
    (∀ e cid, errOpt = some e → PAct.beginDeal cid ∈ tr →
      ∃ d, ClientGetInProgressDeal st' cid = .ok d ∧ d ∈ ClientListInProgressDeals st') := by
  unfold ClientProposeStorageDeal at hrun
  cases hcp : env.commP rt dataRoot with
  | error e =>
    rw [hcp] at hrun
    simp only [Prod.mk.injEq] at hrun
    obtain ⟨⟨hv, he⟩, hs, ht⟩ := hrun
    refine ⟨?_, ?_, ?_⟩
    · intro e2 he2
      injection he2 with he2
      subst he2
      exact ⟨hv.symm, he.symm, hs.symm, ht.symm⟩
    · intro e2 _ _
      exact hs.symm
    · intro e2 cid _ hmem
      rw [← ht] at hmem
      exact absurd hmem (List.not_mem_nil _)
  | ok cp =>
    rw [hcp] at hrun
    simp only at hrun
    refine ⟨?_, ?_, ?_⟩
    · intro e2 he2
      exact Except.noConfusion he2
    all_goals
      cases hsign : env.signProposal addr
          (mkDealProposal cp.1 cp.2 addr infoAddress startEpoch endEpoch price) with
      | error e3 =>
        rw [hsign] at hrun
        simp only [Prod.mk.injEq] at hrun
        obtain ⟨⟨hv, he⟩, hs, ht⟩ := hrun
        first
        | (intro e2 _ _; exact hs.symm)
        | (intro e2 cid _ hmem; rw [← ht] at hmem; exact absurd hmem (List.not_mem_nil _))
      | ok cdp =>
        rw [hsign] at hrun
        simp only at hrun
        cases hcid : env.asIpldCid cdp with
        | error e3 =>
          rw [hcid] at hrun
          simp only [Prod.mk.injEq] at hrun
          obtain ⟨⟨hv, he⟩, hs, ht⟩ := hrun
          first
          | (intro e2 _ _; exact hs.symm)
          | (intro e2 cid _ hmem; rw [← ht] at hmem; exact absurd hmem (List.not_mem_nil _))
        | ok pcid =>
          rw [hcid] at hrun
          simp only at hrun
          cases hbeg : fsmBegin st.deals pcid
              { proposalCid := pcid, clientDealProposal := cdp,
                state := StorageDealUnknown, miner := infoPeerID,
                minerWorker := infoWorker, dataRef := dataRoot } with
          | error e3 =>
            rw [hbeg] at hrun
            simp only [Prod.mk.injEq] at hrun
            obtain ⟨⟨hv, he⟩, hs, ht⟩ := hrun
            first
            | (intro e2 _ _; exact hs.symm)
            | (intro e2 cid _ hmem; rw [← ht] at hmem; exact absurd hmem (List.not_mem_nil _))
          | ok deals1 =>
            rw [hbeg] at hrun
            simp only at hrun
            have hd1 : deals1 = (pcid,
                { proposalCid := pcid, clientDealProposal := cdp,
                  state := StorageDealUnknown, miner := infoPeerID,
                  minerWorker := infoWorker, dataRef := dataRoot }) :: st.deals := by
              unfold fsmBegin at hbeg
              cases hf : st.deals.find? (fun kv => kv.1 == pcid) with
              | none => rw [hf] at hbeg; injection hbeg with h; exact h.symm
              | some kv => rw [hf] at hbeg; exact absurd hbeg (by simp)
            cases hns : env.newDealStream infoPeerID with
            | error e3 =>
              rw [hns] at hrun
              simp only [Prod.mk.injEq] at hrun
              obtain ⟨⟨hv, he⟩, hs, ht⟩ := hrun
              first
              | (intro e2 _ hte;
                 rw [← ht] at hte; exact absurd hte (by simp))
              | (intro e2 cid _ hmem;
                 rw [← ht] at hmem;
                 simp only [List.mem_singleton] at hmem;
                 injection hmem with hcideq;
                 rw [hcideq, ← hs];
                 exact ⟨{ proposalCid := pcid, clientDealProposal := cdp,
                          state := StorageDealUnknown, miner := infoPeerID,
                          minerWorker := infoWorker, dataRef := dataRoot },
                   by unfold ClientGetInProgressDeal; rw [hd1]; simp [List.find?_cons],
                   by unfold ClientListInProgressDeals; rw [hd1]; simp⟩)
            | ok s =>
              rw [hns] at hrun
              simp only at hrun
              cases hsend : fsmSend deals1 pcid env.sendOpenErr with
              | error e3 =>
                rw [hsend] at hrun
                simp only [Prod.mk.injEq] at hrun
                obtain ⟨⟨hv, he⟩, hs, ht⟩ := hrun
                first
                | (intro e2 _ hte;
                   rw [← ht] at hte; exact absurd hte (by simp))
                | (intro e2 cid _ hmem;
                   rw [← ht] at hmem;
                   simp only [List.mem_cons, List.not_mem_nil, or_false] at hmem;
                   rcases hmem with hmem | hmem;
                   all_goals first
                   | (injection hmem with hcideq;
                      rw [hcideq, ← hs];
                      exact ⟨{ proposalCid := pcid, clientDealProposal := cdp,
                               state := StorageDealUnknown, miner := infoPeerID,
                               minerWorker := infoWorker, dataRef := dataRoot },
                        by unfold ClientGetInProgressDeal; rw [hd1]; simp [List.find?_cons],
                        by unfold ClientListInProgressDeals; rw [hd1]; simp⟩)
                   | (exact absurd hmem (by simp)))
              | ok u =>
                rw [hsend] at hrun
                simp only [Prod.mk.injEq] at hrun
                obtain ⟨⟨hv, he⟩, hs, ht⟩ := hrun
                first
                | (intro e2 _ hte;
                   rw [← ht] at hte; exact absurd hte (by simp))
                | (intro e2 cid _ hmem;
                   rw [← ht] at hmem;
                   simp only [List.mem_cons, List.not_mem_nil, or_false] at hmem;
                   rcases hmem with hmem | hmem | hmem | hmem;
                   all_goals first
                   | (injection hmem with hcideq;
                      rw [hcideq, ← hs];
                      exact ⟨{ proposalCid := pcid, clientDealProposal := cdp,
                               state := StorageDealUnknown, miner := infoPeerID,
                               minerWorker := infoWorker, dataRef := dataRoot },
                        by unfold ClientGetInProgressDeal; rw [hd1]; simp [List.find?_cons],
                        by unfold ClientListInProgressDeals; rw [hd1]; simp⟩)
                   | (exact absurd hmem (by simp)))

/-- C4 witness: with a commP computation that fails, ProposeStorageDeal
returns no result, the wrapped error, the unchanged state and an empty
step trace. -/
theorem C4_failure_persistence_witness :
    (none : Option ProposeStorageDealResult) = none ∧
    (some ("computing commP failed: " ++ "boom") : Option Err)
        = some ("computing commP failed: " ++ "boom") ∧
    stW = stW ∧ ([] : List PAct) = [] :=
  (C4_failure_persistence envW4 stW 1 2 3 4 5 6 7 8 9 10 none
      (some ("computing commP failed: " ++ "boom")) stW [] rfl).1 "boom" rfl

/-- C5: every run of ProposeStorageDeal that returns no error performed,
in order, a successful Begin for the proposal cid, the registration of the
new stream under that cid, the Send of the open event and the AddPeer
call; the registered stream is the one a registry lookup for the cid finds
in the resulting state, and the returned result carries that cid. -/
theorem C5_begin_register_send_order (env : ProposeEnv) (st : ClientState)
    (addr infoAddress infoPeerID infoWorker dataRoot : Nat)
    (startEpoch endEpoch price : Int) (collateral : Int) (rt : Nat)
    (val : Option ProposeStorageDealResult) (errOpt : Option Err)
    (st' : ClientState) (tr : List PAct)
    (hrun : ClientProposeStorageDeal env st addr infoAddress infoPeerID infoWorker
        dataRoot startEpoch endEpoch price collateral rt = ((val, errOpt), st', tr))
    (hok : errOpt = none) :
    ∃ cid s,
      tr = [PAct.beginDeal cid, PAct.registerConn cid s, PAct.sendOpen cid,
            PAct.addPeer dataRoot] ∧
      clientDealEnvironmentDealStream st' cid = .ok s ∧
      val = some { proposalCid := cid } := by
  subst hok
  unfold ClientProposeStorageDeal at hrun
  cases hcp : env.commP rt dataRoot with
  | error e =>
    rw [hcp] at hrun
    simp only [Prod.mk.injEq] at hrun
    exact absurd hrun.1.2 (by simp)
  | ok cp =>
    rw [hcp] at hrun
    simp only at hrun
    cases hsign : env.signProposal addr
        (mkDealProposal cp.1 cp.2 addr infoAddress startEpoch endEpoch price) with
    | error e =>
      rw [hsign] at hrun
      simp only [Prod.mk.injEq] at hrun
      exact absurd hrun.1.2 (by simp)
    | ok cdp =>
      rw [hsign] at hrun
      simp only at hrun
      cases hcid : env.asIpldCid cdp with
      | error e =>
        rw [hcid] at hrun
        simp only [Prod.mk.injEq] at hrun
        exact absurd hrun.1.2 (by simp)
      | ok pcid =>
        rw [hcid] at hrun
        simp only at hrun
        cases hbeg : fsmBegin st.deals pcid
            { proposalCid := pcid, clientDealProposal := cdp,
              state := StorageDealUnknown, miner := infoPeerID,
              minerWorker := infoWorker, dataRef := dataRoot } with
        | error e =>
          rw [hbeg] at hrun
          simp only [Prod.mk.injEq] at hrun
          exact absurd hrun.1.2 (by simp)
        | ok deals1 =>
          rw [hbeg] at hrun
          simp only at hrun
          cases hns : env.newDealStream infoPeerID with
          | error e =>
            rw [hns] at hrun
            simp only [Prod.mk.injEq] at hrun
            exact absurd hrun.1.2 (by simp)
          | ok s =>
            rw [hns] at hrun
            simp only at hrun
            cases hsend : fsmSend deals1 pcid env.sendOpenErr with
            | error e =>
              rw [hsend] at hrun
              simp only [Prod.mk.injEq] at hrun
              exact absurd hrun.1.2 (by simp)
            | ok u =>
              rw [hsend] at hrun
              simp only [Prod.mk.injEq] at hrun
              obtain ⟨⟨hv, _⟩, hs, ht⟩ := hrun
              refine ⟨pcid, s, ht.symm, ?_, hv.symm⟩
              rw [← hs]
              unfold clientDealEnvironmentDealStream
              simp [List.find?_cons]

/-- C5 witness: in the all-success environment envW5 the trace is exactly
Begin, register, Send, AddPeer for cid 77 and stream 13, and the registry
lookup finds the stream. -/
theorem C5_begin_register_send_order_witness :
    ∃ cid s,
      (ClientProposeStorageDeal envW5 stW 1 2 3 4 5 6 7 8 9 10).2.2
          = [PAct.beginDeal cid, PAct.registerConn cid s, PAct.sendOpen cid,
             PAct.addPeer 5] ∧
      clientDealEnvironmentDealStream
          (ClientProposeStorageDeal envW5 stW 1 2 3 4 5 6 7 8 9 10).2.1 cid = .ok s ∧
      (ClientProposeStorageDeal envW5 stW 1 2 3 4 5 6 7 8 9 10).1.1
          = some { proposalCid := cid } :=
  C5_begin_register_send_order envW5 stW 1 2 3 4 5 6 7 8 9 10
    (ClientProposeStorageDeal envW5 stW 1 2 3 4 5 6 7 8 9 10).1.1 none
    (ClientProposeStorageDeal envW5 stW 1 2 3 4 5 6 7 8 9 10).2.1
    (ClientProposeStorageDeal envW5 stW 1 2 3 4 5 6 7 8 9 10).2.2 rfl rfl

/-- C1: when the prepared encoding reports exactly the bytes and length
that WriteCar writes directly, any pair of succeeding runs of the
streaming pipeline and of the disk-buffered pipeline on the same payload,
selector and proof type return the same commitment and the same padded
size. -/
theorem C1_streaming_disk_agree (pio : PieceIOCore) (cenv : CommitEnv)
    (penv : PipeEnv) (senv : StoreEnv) (fs : FSState)
    (rt payloadCid selector : Nat)
    (hcar : ∀ pc ws, pio.car.prepareCar pio.bs payloadCid selector = .ok pc →
      pio.car.writeCar pio.bs payloadCid selector = .ok ws →
      pc.dumpBytes = ws ∧ pc.size = ws.length)
    (c ps c2 p2 ps2 : Nat)
    (hstream : pieceIOGeneratePieceCommitment pio cenv penv rt payloadCid selector
        = .ok (c, ps))
    (hdisk : (pieceIOWithStoreGeneratePieceCommitmentToFile pio senv cenv fs
        rt payloadCid selector).1 = .ok (c2, p2, ps2)) :
    c2 = c ∧ ps2 = ps := by
  unfold pieceIOGeneratePieceCommitment at hstream
  unfold pieceIOWithStoreGeneratePieceCommitmentToFile at hdisk
  cases hct : senv.createTempErr with
  | some e => rw [hct] at hdisk; simp at hdisk
  | none =>
  rw [hct] at hdisk
  simp only at hdisk
  cases hprep : pio.car.prepareCar pio.bs payloadCid selector with
  | error e => rw [hprep] at hstream; simp at hstream
  | ok pc =>
  rw [hprep] at hstream
  simp only at hstream
  cases hwc : pio.car.writeCar pio.bs payloadCid selector with
  | error e => rw [hwc] at hdisk; simp at hdisk
  | ok ws =>
  rw [hwc] at hdisk
  simp only at hdisk
  obtain ⟨hb, hsz⟩ := hcar pc ws hprep hwc
  rw [hb, hsz] at hstream
  cases hpipe : penv.pipeErr with
  | some e => rw [hpipe] at hstream; simp at hstream
  | none =>
  rw [hpipe] at hstream
  simp only at hstream
  cases hseek : senv.seekErr with
  | some e => rw [hseek] at hdisk; simp at hdisk
  | none =>
  rw [hseek] at hdisk
  simp only at hdisk
  cases hg : GeneratePieceCommitment cenv rt ws ws.length with
  | error e => rw [hg] at hstream; simp at hstream
  | ok r =>
  rw [hg] at hstream
  rw [hg] at hdisk
  simp only at hstream hdisk
  cases hrc : penv.rCloseErr with
  | some e => rw [hrc] at hstream; simp at hstream
  | none =>
  rw [hrc] at hstream
  simp only at hstream
  cases hde : pc.dumpErr with
  | some e => rw [hde] at hstream; simp at hstream
  | none =>
  rw [hde] at hstream
  simp only at hstream
  cases hwcl : penv.wCloseErr with
  | some e => rw [hwcl] at hstream; simp at hstream
  | none =>
  rw [hwcl] at hstream
  simp only [Except.ok.injEq, Prod.mk.injEq] at hstream hdisk
  obtain ⟨hc2, _, hps2⟩ := hdisk
  exact ⟨hc2.symm.trans (congrArg Prod.fst hstream),
         hps2.symm.trans (congrArg Prod.snd hstream)⟩

/-- C1 witness: over carW, where the prepared encoding and the direct
write agree on the bytes 1, 2, 3, both modes return commitment 10 and
padded size 4. -/
theorem C1_streaming_disk_agree_witness : (10 : Nat) = 10 ∧ (4 : Nat) = 4 :=
  C1_streaming_disk_agree pioW cenvW penvW senvW fsW 2 7 9
    (by
      intro pc ws h1 h2
      injection h1 with h1
      injection h2 with h2
      subst h1
      subst h2
      exact ⟨rfl, rfl⟩)
    10 4 10 0 4 rfl rfl

/-- C2: in streaming mode (past a successful PrepareCar and pipe
creation), the call succeeds only when the consumer pad-and-commit path,
the read-end close, the producer Dump and the write-end close all
succeed; a consumer error is returned as is, taking precedence over any
producer error; and a producer Dump error is surfaced even when the
consumer path (commit and read-end close) reported no error. -/
theorem C2_streaming_joint_success (pio : PieceIOCore) (cenv : CommitEnv)
    (penv : PipeEnv) (rt payloadCid selector : Nat) (pc : PreparedCar)
    (hprep : pio.car.prepareCar pio.bs payloadCid selector = .ok pc)
    (hpipe : penv.pipeErr = none) :
    (∀ c ps,
      pieceIOGeneratePieceCommitment pio cenv penv rt payloadCid selector = .ok (c, ps) →
      GeneratePieceCommitment cenv rt pc.dumpBytes pc.size = .ok (c, ps) ∧
      pc.dumpErr = none ∧ penv.wCloseErr = none ∧ penv.rCloseErr = none) ∧
    (∀ e, GeneratePieceCommitment cenv rt pc.dumpBytes pc.size = .error e →
      pieceIOGeneratePieceCommitment pio cenv penv rt payloadCid selector = .error e) ∧
    (∀ r e, GeneratePieceCommitment cenv rt pc.dumpBytes pc.size = .ok r →
      penv.rCloseErr = none → pc.dumpErr = some e →
      pieceIOGeneratePieceCommitment pio cenv penv rt payloadCid selector = .error e) := by
  unfold pieceIOGeneratePieceCommitment
  rw [hprep, hpipe]
  simp only
  refine ⟨?_, ?_, ?_⟩
  · intro c ps h
    cases hg : GeneratePieceCommitment cenv rt pc.dumpBytes pc.size with
    | error e => rw [hg] at h; simp at h
    | ok r =>
      rw [hg] at h
      cases hrc : penv.rCloseErr with
      | some e => rw [hrc] at h; simp at h
      | none =>
        rw [hrc] at h
        cases hde : pc.dumpErr with
        | some e => rw [hde] at h; simp at h
        | none =>
          rw [hde] at h
          cases hwcl : penv.wCloseErr with
          | some e => rw [hwcl] at h; simp at h
          | none =>
            rw [hwcl] at h
            simp only [Except.ok.injEq] at h
            exact ⟨by rw [h], rfl, rfl, rfl⟩
  · intro e hg
    rw [hg]
  · intro r e hg hrc hde
    rw [hg, hrc, hde]

/-- C2 witness: over carW2, whose Dump fails after writing the bytes the
consumer successfully commits, the streaming pipeline still fails with
the producer error. -/
theorem C2_streaming_joint_success_witness :
    pieceIOGeneratePieceCommitment pioW2 cenvW penvW 2 7 9 = .error "dump failed" :=
  (C2_streaming_joint_success pioW2 cenvW penvW 2 7 9
      { size := 3, dumpBytes := [1, 2, 3], dumpErr := some "dump failed" }
      rfl rfl).2.2 (10, 4) "dump failed" rfl rfl rfl

/-- C3: in disk-buffered mode with a successfully created temporary file,
every failure exit (archive-write, seek, or commitment failure) leaves no
file at the temporary path and returns that primary error; a successful
exit returns the temporary path with the written file still present and
closed; and the result is unchanged under any close or delete error of
the store, so a cleanup error is never what the caller receives. -/
theorem C3_disk_cleanup (pio : PieceIOCore) (senv : StoreEnv)
    (cenv : CommitEnv) (fs : FSState) (rt payloadCid selector : Nat)
    (hcreate : senv.createTempErr = none) :
    (∀ e,
      (pieceIOWithStoreGeneratePieceCommitmentToFile pio senv cenv fs rt
          payloadCid selector).1 = .error e →
      fsLookup (pieceIOWithStoreGeneratePieceCommitmentToFile pio senv cenv fs rt
          payloadCid selector).2 fs.nextPath = none ∧
      (pio.car.writeCar pio.bs payloadCid selector = .error e ∨
       senv.seekErr = some e ∨
       ∃ ws, pio.car.writeCar pio.bs payloadCid selector = .ok ws ∧
         GeneratePieceCommitment cenv rt ws ws.length = .error e)) ∧
    (∀ c p ps,
      (pieceIOWithStoreGeneratePieceCommitmentToFile pio senv cenv fs rt
          payloadCid selector).1 = .ok (c, p, ps) →
      p = fs.nextPath ∧
      ∃ ws, pio.car.writeCar pio.bs payloadCid selector = .ok ws ∧
        fsLookup (pieceIOWithStoreGeneratePieceCommitmentToFile pio senv cenv fs rt
            payloadCid selector).2 p
          = some { path := p, content := ws, isOpen := false }) ∧
    (∀ ce de,
      (pieceIOWithStoreGeneratePieceCommitmentToFile pio
          { senv with closeErr := ce, deleteErr := de } cenv fs rt
          payloadCid selector).1 =
      (pieceIOWithStoreGeneratePieceCommitmentToFile pio senv cenv fs rt
          payloadCid selector).1) := by
  unfold pieceIOWithStoreGeneratePieceCommitmentToFile
  rw [hcreate]
  simp only
  refine ⟨?_, ?_, ?_⟩
  · intro e h
    cases hwc : pio.car.writeCar pio.bs payloadCid selector with
    | error e2 =>
      rw [hwc] at h
      simp only [Except.error.injEq] at h
      subst h
      refine ⟨?_, Or.inl rfl⟩
      simp only
      unfold cleanupTemp fsDelete fsLookup
      exact find?_key_filter (fun f : FileRec => f.path) _ _
    | ok ws =>
      rw [hwc] at h
      cases hseek : senv.seekErr with
      | some e2 =>
        rw [hseek] at h
        simp only [Except.error.injEq] at h
        subst h
        refine ⟨?_, Or.inr (Or.inl rfl)⟩
        simp only
        unfold cleanupTemp fsDelete fsLookup
        exact find?_key_filter (fun f : FileRec => f.path) _ _
      | none =>
        rw [hseek] at h
        simp only at h
        cases hg : GeneratePieceCommitment cenv rt ws ws.length with
        | error e2 =>
          rw [hg] at h
          simp only [Except.error.injEq] at h
          subst h
          refine ⟨?_, Or.inr (Or.inr ⟨ws, rfl, hg⟩)⟩
          simp only
          rw [hg]
          simp only
          unfold cleanupTemp fsDelete fsLookup
          exact find?_key_filter (fun f : FileRec => f.path) _ _
        | ok r =>
          rw [hg] at h
          simp at h
  · intro c p ps h
    cases hwc : pio.car.writeCar pio.bs payloadCid selector with
    | error e2 => rw [hwc] at h; simp at h
    | ok ws =>
      rw [hwc] at h
      cases hseek : senv.seekErr with
      | some e2 => rw [hseek] at h; simp at h
      | none =>
        rw [hseek] at h
        simp only at h
        cases hg : GeneratePieceCommitment cenv rt ws ws.length with
        | error e2 => rw [hg] at h; simp at h
        | ok r =>
          rw [hg] at h
          simp only [Except.ok.injEq, Prod.mk.injEq] at h
          obtain ⟨-, hp, -⟩ := h
          simp only
          rw [hg]
          simp only
          refine ⟨hp.symm, ws, rfl, ?_⟩
          rw [← hp]
          unfold fsClose fsWriteContent fsLookup
          simp [List.find?_cons]
  · intro ce de
    cases pio.car.writeCar pio.bs payloadCid selector with
    | error e2 => rfl
    | ok ws =>
      cases senv.seekErr with
      | some e2 => rfl
      | none =>
        cases GeneratePieceCommitment cenv rt ws ws.length with
        | error e2 => rfl
        | ok r => rfl

/-- C3 witness: a failing archive write over carW3 leaves no file at the
temporary path of the empty store. -/
theorem C3_disk_cleanup_witness :
    fsLookup (pieceIOWithStoreGeneratePieceCommitmentToFile pioW3 senvW cenvW
        fsW 2 7 9).2 fsW.nextPath = none :=
  ((C3_disk_cleanup pioW3 senvW cenvW fsW 2 7 9 rfl).1 "write failed" rfl).1
